import Mathlib

/-!
# Storage helper of the block processor

A shallow embedding of `internal/processor/storage_helper.go`
(`BlockStorageHelper`, `NewBlockStorageHelper`, `AccountBalance`, `Asserter`,
`ExemptFunc`) and the properties its specification states.

Conventions of the embedding.

* Go packages are namespaces (`types`, `asserter`, `fetcher`, `reconciler`,
  `processor`); definitions and fields keep their Go names.
* A Go pointer is an `Option`; `none` is `nil`. This holds for the pointers
  the code stores, returns or hands on (`network`, `fetcher`, `account`,
  `currency`, `Amount.Currency`, `Fetcher.Asserter`, `Operation.Account`) and
  for the two it reads through: `h.fetcher` in `Asserter` and `op.Amount` in
  the predicate of `ExemptFunc`. Reading through `nil` is the run-time fault
  `GoPanic.nilPointerDereference`.
* The receiver `h`, the operation `op`, the entries of the exempt list and the
  `block` that the library function `ConstructPartialBlockIdentifier` converts
  are embedded as the objects they point to.
* `AccountBalance` performs I/O. The remote protocol is a parameter acting on
  an arbitrary world state; every invocation is appended to a call log kept
  next to the adapter in `processor.Machine`.
-/

/-! ## Go errors -/

/-- Values of the Go interface `error`: a base error identified by its text
(`errors.New`, the context errors), or the wrapper `fmt.Errorf` builds for the
verb `%w`, holding its message and the wrapped error. -/
inductive GoError where
  | sentinel (text : String)
  | wrapError (msg : String) (err : GoError)
  deriving DecidableEq, Repr

namespace GoError

/-- The method `Error()`. -/
def Error : GoError → String
  | sentinel text => text
  | wrapError msg _ => msg

/-- The function `errors.Unwrap`: the wrapped error, when there is one. -/
def Unwrap : GoError → Option GoError
  | sentinel _ => none
  | wrapError _ err => some err

/-- The function `errors.Is`: `target` occurs in the cause chain of `err`. -/
def Is (err target : GoError) : Bool :=
  err == target ||
    match err with
    | sentinel _ => false
    | wrapError _ inner => inner.Is target

/-- The call `fmt.Errorf("%w" + suffix, err)`: the message is the message of
`err` followed by `suffix`, and `err` is kept as the wrapped error. -/
def Errorf_w (err : GoError) (suffix : String) : GoError :=
  wrapError (err.Error ++ suffix) err

/-- The error `context.Canceled`. -/
def Canceled : GoError := sentinel "context canceled"

/-- The error `context.DeadlineExceeded`. -/
def DeadlineExceeded : GoError := sentinel "context deadline exceeded"

end GoError

/-- Run-time faults of Go code. -/
inductive GoPanic where
  | nilPointerDereference
  deriving DecidableEq, Repr

/-- Modelled from the spec: the caller-supplied `context.Context`, which
carries the cancellation and deadline signalling handed to the remote lookup. -/
structure Context where
  cancelled : Bool
  deadline : Option Nat
  deriving DecidableEq, Repr

/-! ## Identity types (package `types`) -/

namespace types

/-- Modelled from the spec: the optional metadata of the identity types, a
list of key/value pairs. -/
abbrev JSONObject := List (String × String)

/-- Modelled from the spec: NetworkIdentifier, (blockchain name, network name,
optional sub-network). -/
structure NetworkIdentifier where
  Blockchain : String
  Network : String
  SubNetworkIdentifier : Option String
  deriving DecidableEq, Repr

/-- Modelled from the spec: AccountIdentifier, (address, optional sub-account
descriptor); equality is structural. -/
structure AccountIdentifier where
  Address : String
  SubAccount : Option String
  Metadata : JSONObject
  deriving DecidableEq, Repr

/-- Modelled from the spec: Currency, (symbol, decimal precision, optional
metadata). -/
structure Currency where
  Symbol : String
  Decimals : Int
  Metadata : JSONObject
  deriving DecidableEq, Repr

/-- Modelled from the spec: BlockIdentifier, (index, hash), a fully specified
block. -/
structure BlockIdentifier where
  Index : Int
  Hash : String
  deriving DecidableEq, Repr

/-- Modelled from the spec: PartialBlockIdentifier, either index or hash or
both. -/
structure PartialBlockIdentifier where
  Index : Option Int
  Hash : Option String
  deriving DecidableEq, Repr

/-- Modelled from the spec: Amount, (value as a decimal string, currency),
with the optional metadata of the wire type. -/
structure Amount where
  Value : String
  Currency : Option types.Currency
  Metadata : JSONObject := []
  deriving DecidableEq, Repr

/-- Modelled from the spec: the identifier of an operation inside its
transaction. -/
structure OperationIdentifier where
  Index : Int
  NetworkIndex : Option Int
  deriving DecidableEq, Repr

/-- Modelled from the spec: Operation, an external type that carries an
account and an amount next to its identifier, related operations, type,
status and metadata. Account and amount are optional fields of the wire type
(Go pointers that may be `nil`). -/
structure Operation where
  OperationIdentifier : types.OperationIdentifier
  RelatedOperations : List types.OperationIdentifier
  OpType : String
  Status : String
  Account : Option AccountIdentifier
  Amount : Option types.Amount
  Metadata : JSONObject
  deriving DecidableEq, Repr

/-- Modelled from the spec: `ConstructPartialBlockIdentifier`, the conversion
of a full block identifier to a partial one for lookup purposes, preserving
both fields. -/
def ConstructPartialBlockIdentifier (blockIdentifier : BlockIdentifier) :
    PartialBlockIdentifier :=
  { Index := some blockIdentifier.Index, Hash := some blockIdentifier.Hash }

end types

/-! ## Collaborators (packages `asserter`, `fetcher`, `reconciler`) -/

namespace asserter

/-- Modelled from the spec: the validation ruleset handle, bound to a network
when the connection was created. -/
structure Asserter where
  network : types.NetworkIdentifier
  operationTypes : List String
  deriving DecidableEq, Repr

end asserter

namespace fetcher

/-- Modelled from the spec: the connection handle to the remote data source;
it holds the ruleset handle in its field `Asserter`. -/
structure Fetcher where
  Asserter : Option asserter.Asserter
  endpoint : String
  deriving DecidableEq, Repr

end fetcher

namespace reconciler

/-- Modelled from the spec: AccountCurrency, the (account, currency) pair that
is the unit of exemption matching. -/
structure AccountCurrency where
  Account : Option types.AccountIdentifier
  Currency : Option types.Currency
  deriving DecidableEq, Repr

/-- Modelled from the spec: `ContainsAccountCurrency`, the membership test of
an (account, currency) pair against a list of them, using structural equality
on both account and currency; true iff an exact match exists. -/
def ContainsAccountCurrency :
    List AccountCurrency → AccountCurrency → Bool
  | [], _ => false
  | a :: rest, change =>
    if a.Account = change.Account ∧ a.Currency = change.Currency then true
    else ContainsAccountCurrency rest change

/-- The arguments of one invocation of the remote protocol
`GetCurrencyBalance(ctx, connection, network, account, currency, partialBlock)`. -/
structure BalanceRequest where
  ctx : Context
  fetcher : Option fetcher.Fetcher
  network : Option types.NetworkIdentifier
  account : Option types.AccountIdentifier
  currency : Option types.Currency
  block : types.PartialBlockIdentifier
  deriving DecidableEq, Repr

/-- The three results of the remote protocol: `(BlockIdentifier, string-value,
error)`; `err = none` is Go's `nil` error. -/
structure BalanceResponse where
  block : Option types.BlockIdentifier
  value : String
  err : Option GoError
  deriving DecidableEq, Repr

/-- Modelled from the spec: the remote balance-lookup protocol
`GetCurrencyBalance`, an external collaborator. Its behaviour is arbitrary: a
function of the request and of the state of the outside world, which it may
change. -/
abbrev GetCurrencyBalance (σ : Type) := BalanceRequest → σ → BalanceResponse × σ

end reconciler

/-! ## The adapter (package `processor`) -/

namespace processor

/-- The struct `BlockStorageHelper`. -/
structure BlockStorageHelper where
  network : Option types.NetworkIdentifier
  fetcher : Option fetcher.Fetcher
  lookupBalanceByBlock : Bool
  exemptAccounts : List reconciler.AccountCurrency
  deriving DecidableEq, Repr

/-- The constructor `NewBlockStorageHelper`. -/
def NewBlockStorageHelper (network : Option types.NetworkIdentifier)
    (fetcher : Option fetcher.Fetcher) (lookupBalanceByBlock : Bool)
    (exemptAccounts : List reconciler.AccountCurrency) : BlockStorageHelper :=
  { network := network
    fetcher := fetcher
    lookupBalanceByBlock := lookupBalanceByBlock
    exemptAccounts := exemptAccounts }

/-- The state a call of `AccountBalance` runs in: the adapter, the outside
world the remote protocol acts on, and the log of the invocations of the
remote protocol made so far. -/
structure Machine (σ : Type) where
  helper : BlockStorageHelper
  world : σ
  calls : List reconciler.BalanceRequest

/-- One invocation of the remote protocol: the protocol runs on the world and
the request is appended to the call log. -/
def invokeGetCurrencyBalance {σ : Type} (remote : reconciler.GetCurrencyBalance σ)
    (req : reconciler.BalanceRequest) (m : Machine σ) :
    reconciler.BalanceResponse × Machine σ :=
  ((remote req m.world).1,
    { helper := m.helper, world := (remote req m.world).2, calls := m.calls ++ [req] })

/-- The method `AccountBalance`; the result is Go's pair `(*types.Amount, error)`. -/
def BlockStorageHelper.AccountBalance {σ : Type} (remote : reconciler.GetCurrencyBalance σ)
    (ctx : Context) (account : Option types.AccountIdentifier)
    (currency : Option types.Currency) (block : types.BlockIdentifier) (m : Machine σ) :
    (Option types.Amount × Option GoError) × Machine σ :=
  if !m.helper.lookupBalanceByBlock then
    ((some { Value := "0", Currency := currency }, none), m)
  else
    let r := invokeGetCurrencyBalance remote
      { ctx := ctx
        fetcher := m.helper.fetcher
        network := m.helper.network
        account := account
        currency := currency
        block := types.ConstructPartialBlockIdentifier block } m
    match r.1.err with
    | some err =>
      ((none, some (GoError.Errorf_w err ": unable to get currency balance in storage helper")),
        r.2)
    | none => ((some { Value := r.1.value, Currency := currency }, none), r.2)

/-- The method `Asserter`: the field `Asserter` of the connection. Reading
`h.fetcher.Asserter` through a `nil` connection is a run-time fault. -/
def BlockStorageHelper.Asserter (h : BlockStorageHelper) :
    Except GoPanic (Option asserter.Asserter) :=
  match h.fetcher with
  | none => Except.error GoPanic.nilPointerDereference
  | some connection => Except.ok connection.Asserter

/-- The method `ExemptFunc`: the returned predicate on operations. Reading
`op.Amount.Currency` through a `nil` amount is a run-time fault. -/
def BlockStorageHelper.ExemptFunc (h : BlockStorageHelper) :
    types.Operation → Except GoPanic Bool :=
  fun op =>
    match op.Amount with
    | none => Except.error GoPanic.nilPointerDereference
    | some amount =>
      Except.ok (reconciler.ContainsAccountCurrency h.exemptAccounts
        { Account := op.Account, Currency := amount.Currency })

end processor

/-! ## Concrete inputs -/

namespace sample

/-- The network of the examples. -/
def network : types.NetworkIdentifier :=
  { Blockchain := "DigiByte", Network := "mainnet", SubNetworkIdentifier := none }

/-- The connection of the examples, holding a ruleset handle. -/
def connection : fetcher.Fetcher :=
  { Asserter := some { network := network, operationTypes := ["INPUT", "OUTPUT"] }
    endpoint := "http://localhost:8080" }

/-- The currency BTC. -/
def btc : types.Currency := { Symbol := "BTC", Decimals := 8, Metadata := [] }

/-- The currency ETH. -/
def eth : types.Currency := { Symbol := "ETH", Decimals := 18, Metadata := [] }

/-- The account with address 0xFEE. -/
def feeAccount : types.AccountIdentifier :=
  { Address := "0xFEE", SubAccount := none, Metadata := [] }

/-- A block of the examples. -/
def block : types.BlockIdentifier := { Index := 100, Hash := "0xabc" }

/-- A caller context. -/
def ctx : Context := { cancelled := false, deadline := none }

/-- A remote protocol that succeeds with value 42 and reports another block
than the one asked for; the world counts its invocations. -/
def remoteSucceeds : reconciler.GetCurrencyBalance Nat :=
  fun _ n => ({ block := some { Index := 101, Hash := "0xdef" }, value := "42", err := none }, n + 1)

/-- A remote protocol that fails with a cancellation error and still produces
a value string. -/
def remoteCancelled : reconciler.GetCurrencyBalance Nat :=
  fun _ n => ({ block := none, value := "7", err := some GoError.Canceled }, n + 1)

/-- A remote protocol that fails with a lookup error of the node. -/
def remoteNotFound : reconciler.GetCurrencyBalance Nat :=
  fun _ n =>
    ({ block := none, value := "", err := some (GoError.sentinel "account not found") }, n + 1)

/-- An adapter with remote lookup disabled. -/
def helperDisabled : processor.BlockStorageHelper :=
  processor.NewBlockStorageHelper (some network) (some connection) false []

/-- An adapter with remote lookup enabled. -/
def helperEnabled : processor.BlockStorageHelper :=
  processor.NewBlockStorageHelper (some network) (some connection) true []

/-- An adapter whose exempt list is the pair (0xFEE, BTC). -/
def helperFee : processor.BlockStorageHelper :=
  processor.NewBlockStorageHelper (some network) (some connection) false
    [{ Account := some feeAccount, Currency := some btc }]

/-- An operation on an account in a currency, with the given amount value. -/
def transfer (index : Int) (account : Option types.AccountIdentifier) (value : String)
    (currency : types.Currency) : types.Operation :=
  { OperationIdentifier := { Index := index, NetworkIndex := none }
    RelatedOperations := []
    OpType := "TRANSFER"
    Status := "SUCCESS"
    Account := account
    Amount := some { Value := value, Currency := some currency }
    Metadata := [] }

/-- An operation that carries an account and no amount. -/
def withoutAmount : types.Operation :=
  { OperationIdentifier := { Index := 0, NetworkIndex := none }
    RelatedOperations := []
    OpType := "VOTE"
    Status := "SUCCESS"
    Account := some feeAccount
    Amount := none
    Metadata := [] }

end sample

/-! ## Lemmas -/

namespace GoError

theorem Is_wrapError (msg : String) (inner target : GoError) :
    (wrapError msg inner).Is target =
      (wrapError msg inner == target || inner.Is target) := by
  conv_lhs => unfold Is

theorem Is_wrapError_of_ne (msg : String) (inner target : GoError)
    (hne : target ≠ wrapError msg inner) :
    (wrapError msg inner).Is target = inner.Is target := by
  rw [Is_wrapError]
  have h : (wrapError msg inner == target) = false :=
    beq_eq_false_iff_ne.mpr (fun h => hne h.symm)
  rw [h, Bool.false_or]

theorem Is_self (err : GoError) : err.Is err = true := by
  cases err <;> simp [Is]

end GoError

namespace reconciler

theorem ContainsAccountCurrency_iff (arr : List AccountCurrency) (change : AccountCurrency) :
    ContainsAccountCurrency arr change = true ↔ change ∈ arr := by
  induction arr with
  | nil => simp [ContainsAccountCurrency]
  | cons a rest ih =>
    unfold ContainsAccountCurrency
    by_cases h : a.Account = change.Account ∧ a.Currency = change.Currency
    · have hEq : change = a := by
        cases a; cases change; simp_all
      simp [h, hEq]
    · have hNe : ¬ change = a := by
        intro hEq
        apply h
        subst hEq
        exact ⟨rfl, rfl⟩
      simp [h, hNe, ih]

end reconciler

namespace processor

theorem AccountBalance_disabled {σ : Type} (remote : reconciler.GetCurrencyBalance σ)
    (ctx : Context) (account : Option types.AccountIdentifier)
    (currency : Option types.Currency) (block : types.BlockIdentifier) (m : Machine σ)
    (hflag : m.helper.lookupBalanceByBlock = false) :
    BlockStorageHelper.AccountBalance remote ctx account currency block m =
      ((some { Value := "0", Currency := currency }, none), m) := by
  simp [BlockStorageHelper.AccountBalance, hflag]

theorem AccountBalance_enabled {σ : Type} (remote : reconciler.GetCurrencyBalance σ)
    (ctx : Context) (account : Option types.AccountIdentifier)
    (currency : Option types.Currency) (block : types.BlockIdentifier) (m : Machine σ)
    (hflag : m.helper.lookupBalanceByBlock = true) (req : reconciler.BalanceRequest)
    (hreq : req =
      { ctx := ctx, fetcher := m.helper.fetcher, network := m.helper.network,
        account := account, currency := currency,
        block := { Index := some block.Index, Hash := some block.Hash } }) :
    BlockStorageHelper.AccountBalance remote ctx account currency block m =
      (match (remote req m.world).1.err with
        | some err =>
          (none, some (GoError.Errorf_w err ": unable to get currency balance in storage helper"))
        | none => (some { Value := (remote req m.world).1.value, Currency := currency }, none),
        { helper := m.helper, world := (remote req m.world).2, calls := m.calls ++ [req] }) := by
  subst hreq
  simp only [BlockStorageHelper.AccountBalance, hflag, invokeGetCurrencyBalance,
    types.ConstructPartialBlockIdentifier]
  cases (remote
      { ctx := ctx, fetcher := m.helper.fetcher, network := m.helper.network,
        account := account, currency := currency,
        block := { Index := some block.Index, Hash := some block.Hash } } m.world).1.err <;> simp

theorem AccountBalance_helper {σ : Type} (remote : reconciler.GetCurrencyBalance σ)
    (ctx : Context) (account : Option types.AccountIdentifier)
    (currency : Option types.Currency) (block : types.BlockIdentifier) (m : Machine σ) :
    (BlockStorageHelper.AccountBalance remote ctx account currency block m).2.helper =
      m.helper := by
  cases hflag : m.helper.lookupBalanceByBlock
  · rw [AccountBalance_disabled remote ctx account currency block m hflag]
  · rw [AccountBalance_enabled remote ctx account currency block m hflag _ rfl]

end processor

/-! ## Balance resolution -/

namespace processor

/-- C1: with remote lookup disabled, `AccountBalance` returns without error the
amount of value "0" in the requested currency, for every account, currency,
block, network, connection and remote protocol; the world and the call log
are left as they were, so the remote protocol is not invoked. -/
theorem AccountBalance_lookup_disabled {σ : Type} (remote : reconciler.GetCurrencyBalance σ)
    (network : Option types.NetworkIdentifier) (fetcher : Option fetcher.Fetcher)
    (exemptAccounts : List reconciler.AccountCurrency) (ctx : Context)
    (account : Option types.AccountIdentifier) (currency : Option types.Currency)
    (block : types.BlockIdentifier) (world : σ) (calls : List reconciler.BalanceRequest) :
    BlockStorageHelper.AccountBalance remote ctx account currency block
        { helper := NewBlockStorageHelper network fetcher false exemptAccounts
          world := world, calls := calls } =
      ((some { Value := "0", Currency := currency, Metadata := [] }, none),
        { helper := NewBlockStorageHelper network fetcher false exemptAccounts
          world := world, calls := calls }) :=
  AccountBalance_disabled remote ctx account currency block _ rfl

/-- C2: with remote lookup enabled, when the remote protocol answers the
request with block identifier `b`, value `v` and no error, `AccountBalance`
returns without error the amount of value `v` in the requested currency,
whatever `b` is. -/
theorem AccountBalance_lookup_success {σ : Type} (remote : reconciler.GetCurrencyBalance σ)
    (network : Option types.NetworkIdentifier) (fetcher : Option fetcher.Fetcher)
    (exemptAccounts : List reconciler.AccountCurrency) (ctx : Context)
    (account : Option types.AccountIdentifier) (currency : Option types.Currency)
    (block : types.BlockIdentifier) (world : σ) (calls : List reconciler.BalanceRequest)
    (b : Option types.BlockIdentifier) (v : String) (after : σ)
    (hremote : remote
        { ctx := ctx, fetcher := fetcher, network := network, account := account,
          currency := currency,
          block := types.ConstructPartialBlockIdentifier block } world =
      ({ block := b, value := v, err := none }, after)) :
    (BlockStorageHelper.AccountBalance remote ctx account currency block
        { helper := NewBlockStorageHelper network fetcher true exemptAccounts
          world := world, calls := calls }).1 =
      (some { Value := v, Currency := currency, Metadata := [] }, none) := by
  rw [AccountBalance_enabled remote ctx account currency block _ rfl _ rfl]
  simp only [NewBlockStorageHelper]
  simp only [types.ConstructPartialBlockIdentifier] at hremote
  rw [hremote]

/-- C2, at the remote protocol that answers "42" for another block. -/
theorem AccountBalance_lookup_success_witness :
    (BlockStorageHelper.AccountBalance sample.remoteSucceeds sample.ctx
        (some sample.feeAccount) (some sample.btc) sample.block
        { helper := NewBlockStorageHelper (some sample.network) (some sample.connection) true []
          world := 0, calls := [] }).1 =
      (some { Value := "42", Currency := some sample.btc, Metadata := [] }, none) :=
  AccountBalance_lookup_success sample.remoteSucceeds (some sample.network) (some sample.connection) []
    sample.ctx (some sample.feeAccount) (some sample.btc) sample.block 0 []
    (some { Index := 101, Hash := "0xdef" }) "42" 1 rfl

end processor

namespace processor

/-- C3: `AccountBalance` returns an error exactly when remote lookup is enabled
and the remote protocol answers the request with an error; when that error is
`E`, no amount is returned, whatever value string came with the failure, and
the returned error wraps `E`: its cause is `E`, `errors.Is` finds `E` in it,
and its text is the text of `E` followed by the context of the adapter. -/
theorem AccountBalance_error_iff_remote_failure {σ : Type}
    (remote : reconciler.GetCurrencyBalance σ) (ctx : Context)
    (account : Option types.AccountIdentifier) (currency : Option types.Currency)
    (block : types.BlockIdentifier) (m : Machine σ) :
    ((BlockStorageHelper.AccountBalance remote ctx account currency block m).1.2.isSome = true ↔
      (m.helper.lookupBalanceByBlock = true ∧
        (remote
          { ctx := ctx, fetcher := m.helper.fetcher, network := m.helper.network,
            account := account, currency := currency,
            block := types.ConstructPartialBlockIdentifier block } m.world).1.err.isSome = true)) ∧
    ∀ E : GoError, m.helper.lookupBalanceByBlock = true →
      (remote
          { ctx := ctx, fetcher := m.helper.fetcher, network := m.helper.network,
            account := account, currency := currency,
            block := types.ConstructPartialBlockIdentifier block } m.world).1.err = some E →
      ∃ r : GoError,
        (BlockStorageHelper.AccountBalance remote ctx account currency block m).1 =
          (none, some r) ∧
        r.Unwrap = some E ∧ r.Is E = true ∧
        r.Error = E.Error ++ ": unable to get currency balance in storage helper" := by
  constructor
  · cases hflag : m.helper.lookupBalanceByBlock
    · rw [AccountBalance_disabled remote ctx account currency block m hflag]
      simp
    · rw [AccountBalance_enabled remote ctx account currency block m hflag _ rfl]
      simp only [types.ConstructPartialBlockIdentifier]
      cases (remote
        { ctx := ctx, fetcher := m.helper.fetcher, network := m.helper.network,
          account := account, currency := currency,
          block := { Index := some block.Index, Hash := some block.Hash } } m.world).1.err <;>
        simp
  · intro E hflag hfail
    refine ⟨GoError.Errorf_w E ": unable to get currency balance in storage helper", ?_, rfl, ?_,
      rfl⟩
    · rw [AccountBalance_enabled remote ctx account currency block m hflag _ rfl]
      simp only [types.ConstructPartialBlockIdentifier] at hfail
      rw [hfail]
    · unfold GoError.Errorf_w
      rw [GoError.Is_wrapError, GoError.Is_self, Bool.or_true]

/-- C3, at a remote protocol that fails with a cancellation error and a value
string: no amount, and the wrapped cancellation error. -/
theorem AccountBalance_error_iff_remote_failure_witness :
    (BlockStorageHelper.AccountBalance sample.remoteCancelled sample.ctx
        (some sample.feeAccount) (some sample.btc) sample.block
        { helper := sample.helperEnabled, world := 0, calls := [] }).1 =
      (none, some (GoError.wrapError
        "context canceled: unable to get currency balance in storage helper"
        GoError.Canceled)) ∧
    ∃ r : GoError,
      (BlockStorageHelper.AccountBalance sample.remoteCancelled sample.ctx
        (some sample.feeAccount) (some sample.btc) sample.block
        { helper := sample.helperEnabled, world := 0, calls := [] }).1 = (none, some r) ∧
      r.Unwrap = some GoError.Canceled ∧ r.Is GoError.Canceled = true ∧
      r.Error = GoError.Canceled.Error ++ ": unable to get currency balance in storage helper" :=
  ⟨by decide,
    (AccountBalance_error_iff_remote_failure sample.remoteCancelled sample.ctx
      (some sample.feeAccount) (some sample.btc) sample.block
      { helper := sample.helperEnabled, world := 0, calls := [] }).2 GoError.Canceled rfl rfl⟩

/-- C6: with remote lookup enabled, `AccountBalance` on block (index `i`, hash
`h`) invokes the remote protocol with the context of the caller, the
connection and the network given at construction, the requested account and
currency, and the partial block identifier holding both `i` and `h`; the
world it leaves is the one the remote protocol produced on that request. -/
theorem AccountBalance_remote_arguments {σ : Type} (remote : reconciler.GetCurrencyBalance σ)
    (network : Option types.NetworkIdentifier) (fetcher : Option fetcher.Fetcher)
    (exemptAccounts : List reconciler.AccountCurrency) (ctx : Context)
    (account : Option types.AccountIdentifier) (currency : Option types.Currency)
    (i : Int) (h : String) (world : σ) (calls : List reconciler.BalanceRequest) :
    (BlockStorageHelper.AccountBalance remote ctx account currency { Index := i, Hash := h }
        { helper := NewBlockStorageHelper network fetcher true exemptAccounts
          world := world, calls := calls }).2.calls =
      calls ++
        [{ ctx := ctx, fetcher := fetcher, network := network, account := account,
           currency := currency, block := { Index := some i, Hash := some h } }] ∧
    (BlockStorageHelper.AccountBalance remote ctx account currency { Index := i, Hash := h }
        { helper := NewBlockStorageHelper network fetcher true exemptAccounts
          world := world, calls := calls }).2.world =
      (remote
        { ctx := ctx, fetcher := fetcher, network := network, account := account,
          currency := currency, block := { Index := some i, Hash := some h } } world).2 := by
  rw [AccountBalance_enabled remote ctx account currency _ _ rfl _ rfl]
  exact ⟨rfl, rfl⟩

end processor

namespace processor

/-- C7: when the remote protocol fails with `E`, the error `AccountBalance`
returns has the kind of `E`: `errors.Is` against any base error, such as
`context.Canceled` or `context.DeadlineExceeded`, and against any target other
than the new wrapper itself, gives on the returned error the answer it gives
on `E`. -/
theorem AccountBalance_error_kind {σ : Type} (remote : reconciler.GetCurrencyBalance σ)
    (ctx : Context) (account : Option types.AccountIdentifier)
    (currency : Option types.Currency) (block : types.BlockIdentifier) (m : Machine σ)
    (E : GoError) (hflag : m.helper.lookupBalanceByBlock = true)
    (hfail : (remote
        { ctx := ctx, fetcher := m.helper.fetcher, network := m.helper.network,
          account := account, currency := currency,
          block := types.ConstructPartialBlockIdentifier block } m.world).1.err = some E) :
    ∃ r : GoError,
      (BlockStorageHelper.AccountBalance remote ctx account currency block m).1.2 = some r ∧
      (∀ text : String, r.Is (GoError.sentinel text) = E.Is (GoError.sentinel text)) ∧
      r.Is GoError.Canceled = E.Is GoError.Canceled ∧
      r.Is GoError.DeadlineExceeded = E.Is GoError.DeadlineExceeded ∧
      (∀ target : GoError, target ≠ r → r.Is target = E.Is target) := by
  have hsent : ∀ text : String,
      (GoError.Errorf_w E ": unable to get currency balance in storage helper").Is
        (GoError.sentinel text) = E.Is (GoError.sentinel text) := by
    intro text
    unfold GoError.Errorf_w
    exact GoError.Is_wrapError_of_ne _ _ _ (by simp)
  refine ⟨GoError.Errorf_w E ": unable to get currency balance in storage helper", ?_, hsent,
    hsent _, hsent _, ?_⟩
  · rw [AccountBalance_enabled remote ctx account currency block m hflag _ rfl]
    simp only [types.ConstructPartialBlockIdentifier] at hfail
    rw [hfail]
  · intro target hne
    unfold GoError.Errorf_w at hne ⊢
    exact GoError.Is_wrapError_of_ne _ _ _ hne

/-- C7, at a remote protocol that fails with the cancellation error: the
returned error is a cancellation, while the one returned for a lookup failure
of the node is not. -/
theorem AccountBalance_error_kind_witness :
    (∃ r : GoError,
      (BlockStorageHelper.AccountBalance sample.remoteCancelled sample.ctx
        (some sample.feeAccount) (some sample.btc) sample.block
        { helper := sample.helperEnabled, world := 0, calls := [] }).1.2 = some r ∧
      (∀ text : String,
        r.Is (GoError.sentinel text) = GoError.Canceled.Is (GoError.sentinel text)) ∧
      r.Is GoError.Canceled = GoError.Canceled.Is GoError.Canceled ∧
      r.Is GoError.DeadlineExceeded = GoError.Canceled.Is GoError.DeadlineExceeded ∧
      (∀ target : GoError, target ≠ r → r.Is target = GoError.Canceled.Is target)) ∧
    ((BlockStorageHelper.AccountBalance sample.remoteCancelled sample.ctx
        (some sample.feeAccount) (some sample.btc) sample.block
        { helper := sample.helperEnabled, world := 0, calls := [] }).1.2.map
      (fun r => r.Is GoError.Canceled) = some true) ∧
    ((BlockStorageHelper.AccountBalance sample.remoteNotFound sample.ctx
        (some sample.feeAccount) (some sample.btc) sample.block
        { helper := sample.helperEnabled, world := 0, calls := [] }).1.2.map
      (fun r => r.Is GoError.Canceled) = some false) :=
  ⟨AccountBalance_error_kind sample.remoteCancelled sample.ctx (some sample.feeAccount)
      (some sample.btc) sample.block { helper := sample.helperEnabled, world := 0, calls := [] }
      GoError.Canceled rfl rfl,
    by decide, by decide⟩

/-- C10: with remote lookup enabled, one call of `AccountBalance` applies the
remote protocol exactly once, to the request built from the arguments and to
the world it finds: the world it leaves is the one that single application
produced, the result is made from the answer of that application (its value
on success, its wrapped error on failure), the call log grows by that one
request, and the adapter (network, connection, lookup flag, exempt list) is
as it was. A second call applies the remote protocol once more, to the world
the first call left, and logs a second request: no answer is kept. -/
theorem AccountBalance_one_remote_call {σ : Type} (remote : reconciler.GetCurrencyBalance σ)
    (ctx : Context) (account : Option types.AccountIdentifier)
    (currency : Option types.Currency) (block : types.BlockIdentifier) (m : Machine σ)
    (req : reconciler.BalanceRequest)
    (hflag : m.helper.lookupBalanceByBlock = true)
    (hreq : req =
      { ctx := ctx, fetcher := m.helper.fetcher, network := m.helper.network,
        account := account, currency := currency,
        block := types.ConstructPartialBlockIdentifier block }) :
    (BlockStorageHelper.AccountBalance remote ctx account currency block m).2.world =
      (remote req m.world).2 ∧
    (BlockStorageHelper.AccountBalance remote ctx account currency block m).1 =
      (match (remote req m.world).1.err with
        | some err =>
          (none, some (GoError.Errorf_w err ": unable to get currency balance in storage helper"))
        | none =>
          (some { Value := (remote req m.world).1.value, Currency := currency, Metadata := [] },
            none)) ∧
    (BlockStorageHelper.AccountBalance remote ctx account currency block m).2.calls =
      m.calls ++ [req] ∧
    (BlockStorageHelper.AccountBalance remote ctx account currency block m).2.helper = m.helper ∧
    (BlockStorageHelper.AccountBalance remote ctx account currency block
      (BlockStorageHelper.AccountBalance remote ctx account currency block m).2).2.world =
      (remote req (remote req m.world).2).2 ∧
    (BlockStorageHelper.AccountBalance remote ctx account currency block
      (BlockStorageHelper.AccountBalance remote ctx account currency block m).2).1 =
      (match (remote req (remote req m.world).2).1.err with
        | some err =>
          (none, some (GoError.Errorf_w err ": unable to get currency balance in storage helper"))
        | none =>
          (some { Value := (remote req (remote req m.world).2).1.value, Currency := currency,
                  Metadata := [] },
            none)) ∧
    (BlockStorageHelper.AccountBalance remote ctx account currency block
      (BlockStorageHelper.AccountBalance remote ctx account currency block m).2).2.calls =
      m.calls ++ [req, req] := by
  have hone := AccountBalance_enabled remote ctx account currency block m hflag req hreq
  have htwo := AccountBalance_enabled remote ctx account currency block
    { helper := m.helper, world := (remote req m.world).2, calls := m.calls ++ [req] }
    hflag req hreq
  rw [hone, htwo]
  refine ⟨rfl, rfl, rfl, rfl, rfl, rfl, ?_⟩
  simp

/-- C10, at remote protocols whose world counts their applications: after one
call the count is 1 and one request is logged, after two calls the count is 2
and two requests are logged, on failure as on success; the adapter is
unchanged. -/
theorem AccountBalance_one_remote_call_witness :
    ((BlockStorageHelper.AccountBalance sample.remoteNotFound sample.ctx
        (some sample.feeAccount) (some sample.btc) sample.block
        { helper := sample.helperEnabled, world := 0, calls := [] }).2.world = 1 ∧
      (BlockStorageHelper.AccountBalance sample.remoteNotFound sample.ctx
        (some sample.feeAccount) (some sample.btc) sample.block
        { helper := sample.helperEnabled, world := 0, calls := [] }).2.calls.length = 1 ∧
      (BlockStorageHelper.AccountBalance sample.remoteNotFound sample.ctx
        (some sample.feeAccount) (some sample.btc) sample.block
        (BlockStorageHelper.AccountBalance sample.remoteNotFound sample.ctx
          (some sample.feeAccount) (some sample.btc) sample.block
          { helper := sample.helperEnabled, world := 0, calls := [] }).2).2.world = 2 ∧
      (BlockStorageHelper.AccountBalance sample.remoteSucceeds sample.ctx
        (some sample.feeAccount) (some sample.btc) sample.block
        { helper := sample.helperEnabled, world := 0, calls := [] }).2.world = 1 ∧
      (BlockStorageHelper.AccountBalance sample.remoteSucceeds sample.ctx
        (some sample.feeAccount) (some sample.btc) sample.block
        (BlockStorageHelper.AccountBalance sample.remoteSucceeds sample.ctx
          (some sample.feeAccount) (some sample.btc) sample.block
          { helper := sample.helperEnabled, world := 0, calls := [] }).2).2.calls.length = 2) ∧
    (BlockStorageHelper.AccountBalance sample.remoteNotFound sample.ctx
        (some sample.feeAccount) (some sample.btc) sample.block
        { helper := sample.helperEnabled, world := 0, calls := [] }).2.helper =
      sample.helperEnabled :=
  ⟨by decide,
    (AccountBalance_one_remote_call sample.remoteNotFound sample.ctx (some sample.feeAccount)
      (some sample.btc) sample.block { helper := sample.helperEnabled, world := 0, calls := [] }
      { ctx := sample.ctx, fetcher := some sample.connection, network := some sample.network,
        account := some sample.feeAccount, currency := some sample.btc,
        block := { Index := some 100, Hash := some "0xabc" } } rfl rfl).2.2.2.1⟩

end processor

/-! ## Exemption filter and ruleset accessor -/

namespace processor

/-- C4: for every exempt list `L` and every operation carrying account `a` and
an amount of currency `c`, the predicate of `ExemptFunc` returns a boolean
that is true exactly when some entry of `L` equals the pair on both account
and currency; with the empty list it returns false. -/
theorem ExemptFunc_true_iff_listed (network : Option types.NetworkIdentifier)
    (fetcher : Option fetcher.Fetcher) (lookupBalanceByBlock : Bool)
    (L : List reconciler.AccountCurrency) (op : types.Operation)
    (a : types.AccountIdentifier) (c : Option types.Currency) (amount : types.Amount)
    (haccount : op.Account = some a) (hamount : op.Amount = some amount)
    (hcurrency : amount.Currency = c) :
    (∃ b : Bool,
      (NewBlockStorageHelper network fetcher lookupBalanceByBlock L).ExemptFunc op =
        Except.ok b ∧
      (b = true ↔ ∃ e ∈ L, e.Account = some a ∧ e.Currency = c)) ∧
    (NewBlockStorageHelper network fetcher lookupBalanceByBlock []).ExemptFunc op =
      Except.ok false := by
  constructor
  · refine ⟨reconciler.ContainsAccountCurrency L { Account := op.Account, Currency := c }, ?_, ?_⟩
    · simp [BlockStorageHelper.ExemptFunc, NewBlockStorageHelper, hamount, hcurrency]
    · rw [reconciler.ContainsAccountCurrency_iff, haccount]
      constructor
      · intro hmem
        exact ⟨_, hmem, rfl, rfl⟩
      · rintro ⟨e, hmem, h1, h2⟩
        have he : e = { Account := some a, Currency := c } := by
          cases e
          simp_all
        rw [← he]
        exact hmem
  · simp [BlockStorageHelper.ExemptFunc, NewBlockStorageHelper, hamount,
      reconciler.ContainsAccountCurrency]

/-- C4, at the exempt list holding (0xFEE, BTC): an operation on 0xFEE in BTC
is exempt, the same account in ETH is not. -/
theorem ExemptFunc_true_iff_listed_witness :
    (sample.helperFee.ExemptFunc (sample.transfer 0 (some sample.feeAccount) "5" sample.btc) =
        Except.ok true ∧
      sample.helperFee.ExemptFunc (sample.transfer 0 (some sample.feeAccount) "5" sample.eth) =
        Except.ok false) ∧
    ((∃ b : Bool,
      (NewBlockStorageHelper (some sample.network) (some sample.connection) false
          [{ Account := some sample.feeAccount, Currency := some sample.btc }]).ExemptFunc
        (sample.transfer 0 (some sample.feeAccount) "5" sample.btc) = Except.ok b ∧
      (b = true ↔
        ∃ e ∈ [({ Account := some sample.feeAccount, Currency := some sample.btc } :
            reconciler.AccountCurrency)],
          e.Account = some sample.feeAccount ∧ e.Currency = some sample.btc)) ∧
    (NewBlockStorageHelper (some sample.network) (some sample.connection) false []).ExemptFunc
        (sample.transfer 0 (some sample.feeAccount) "5" sample.btc) = Except.ok false) :=
  ⟨⟨rfl, rfl⟩,
    ExemptFunc_true_iff_listed (some sample.network) (some sample.connection) false
      [{ Account := some sample.feeAccount, Currency := some sample.btc }]
      (sample.transfer 0 (some sample.feeAccount) "5" sample.btc) sample.feeAccount
      (some sample.btc) { Value := "5", Currency := some sample.btc } rfl rfl rfl⟩

/-- C5, refuted: on an operation that carries no amount the predicate of
`ExemptFunc` reads `op.Amount.Currency` through `nil` and faults; it returns
no boolean. -/
theorem ExemptFunc_faults_without_amount :
    sample.helperFee.ExemptFunc sample.withoutAmount =
        Except.error GoPanic.nilPointerDereference ∧
      ¬ ∃ b : Bool, sample.helperFee.ExemptFunc sample.withoutAmount = Except.ok b :=
  ⟨rfl, fun ⟨_, hb⟩ => Except.noConfusion hb⟩

/-- C5, amended: for every adapter and every operation, the predicate of
`ExemptFunc` returns a boolean exactly when the operation carries an amount;
the account may be absent. -/
theorem ExemptFunc_total_iff_amount (h : BlockStorageHelper) (op : types.Operation) :
    (∃ b : Bool, h.ExemptFunc op = Except.ok b) ↔ op.Amount.isSome = true := by
  unfold BlockStorageHelper.ExemptFunc
  cases op.Amount <;> simp

/-- C5, amended, at an operation with an amount and no account: the predicate
returns false. -/
theorem ExemptFunc_total_iff_amount_witness :
    sample.helperFee.ExemptFunc (sample.transfer 3 none "1" sample.btc) = Except.ok false ∧
      ∃ b : Bool, sample.helperFee.ExemptFunc (sample.transfer 3 none "1" sample.btc) =
        Except.ok b :=
  ⟨rfl,
    (ExemptFunc_total_iff_amount sample.helperFee (sample.transfer 3 none "1" sample.btc)).mpr
      rfl⟩

/-- C8, refuted: an adapter `NewBlockStorageHelper` builds with a `nil`
connection makes `Asserter` read `h.fetcher.Asserter` through `nil`; the call
faults and returns no handle. -/
theorem Asserter_faults_without_connection :
    (NewBlockStorageHelper (some sample.network) none false []).Asserter =
        Except.error GoPanic.nilPointerDereference ∧
      ¬ ∃ handle : Option asserter.Asserter,
        (NewBlockStorageHelper (some sample.network) none false []).Asserter =
          Except.ok handle :=
  ⟨rfl, fun ⟨_, hb⟩ => Except.noConfusion hb⟩

/-- C8, amended: `Asserter` returns a handle exactly for the adapters built
with a connection, and then returns the ruleset handle that connection holds;
the predicate of `ExemptFunc` is, on every operation, the fault for a missing
amount and otherwise the membership test of (account, amount currency) in the
list given at construction. Neither depends on anything but the adapter, and
the adapter that a call of `AccountBalance` leaves behind, for any remote
protocol and world, gives the same handle and a predicate with the same
answers: repeated calls agree. -/
theorem Asserter_ExemptFunc_stable (network : Option types.NetworkIdentifier)
    (conn : Option fetcher.Fetcher) (lookupBalanceByBlock : Bool)
    (exemptAccounts : List reconciler.AccountCurrency) :
    ((∃ handle : Option asserter.Asserter,
        (NewBlockStorageHelper network conn lookupBalanceByBlock exemptAccounts).Asserter =
          Except.ok handle) ↔ conn.isSome = true) ∧
    (∀ connection : fetcher.Fetcher, conn = some connection →
      (NewBlockStorageHelper network conn lookupBalanceByBlock exemptAccounts).Asserter =
        Except.ok connection.Asserter) ∧
    (∀ op : types.Operation,
      (NewBlockStorageHelper network conn lookupBalanceByBlock exemptAccounts).ExemptFunc op =
        match op.Amount with
        | none => Except.error GoPanic.nilPointerDereference
        | some amount =>
          Except.ok (reconciler.ContainsAccountCurrency exemptAccounts
            { Account := op.Account, Currency := amount.Currency })) ∧
    (∀ (σ : Type) (remote : reconciler.GetCurrencyBalance σ) (ctx : Context)
        (account : Option types.AccountIdentifier) (currency : Option types.Currency)
        (block : types.BlockIdentifier) (world : σ) (calls : List reconciler.BalanceRequest),
      (BlockStorageHelper.AccountBalance remote ctx account currency block
          { helper := NewBlockStorageHelper network conn lookupBalanceByBlock exemptAccounts
            world := world, calls := calls }).2.helper.Asserter =
        (NewBlockStorageHelper network conn lookupBalanceByBlock exemptAccounts).Asserter ∧
      ∀ op : types.Operation,
        (BlockStorageHelper.AccountBalance remote ctx account currency block
          { helper := NewBlockStorageHelper network conn lookupBalanceByBlock exemptAccounts
            world := world, calls := calls }).2.helper.ExemptFunc op =
        (NewBlockStorageHelper network conn lookupBalanceByBlock
          exemptAccounts).ExemptFunc op) := by
  refine ⟨?_, ?_, fun _ => rfl, ?_⟩
  · cases conn <;> simp [BlockStorageHelper.Asserter, NewBlockStorageHelper]
  · intro connection hconnection
    subst hconnection
    rfl
  · intro σ remote ctx account currency block world calls
    rw [AccountBalance_helper]
    exact ⟨rfl, fun _ => rfl⟩

/-- C8, amended, at the adapter of the examples: `Asserter` returns the handle
of its connection, before and after a call of `AccountBalance`. -/
theorem Asserter_ExemptFunc_stable_witness :
    sample.helperEnabled.Asserter = Except.ok sample.connection.Asserter ∧
    (BlockStorageHelper.AccountBalance sample.remoteSucceeds sample.ctx
        (some sample.feeAccount) (some sample.btc) sample.block
        { helper := sample.helperEnabled, world := 0, calls := [] }).2.helper.Asserter =
      Except.ok sample.connection.Asserter ∧
    (NewBlockStorageHelper (some sample.network) (some sample.connection) true []).Asserter =
      Except.ok sample.connection.Asserter :=
  ⟨rfl, rfl,
    (Asserter_ExemptFunc_stable (some sample.network) (some sample.connection) true []).2.1
      sample.connection rfl⟩

/-- C9: two operations with the same account and the same amount currency get
the same answer from the predicate of `ExemptFunc`, whatever their other
fields (identifier, related operations, type, status, amount value,
metadata) are. -/
theorem ExemptFunc_reads_account_and_currency (h : BlockStorageHelper)
    (op1 op2 : types.Operation) (haccount : op1.Account = op2.Account)
    (hcurrency : op1.Amount.map (fun amount => amount.Currency) =
      op2.Amount.map (fun amount => amount.Currency)) :
    h.ExemptFunc op1 = h.ExemptFunc op2 := by
  unfold BlockStorageHelper.ExemptFunc
  cases h1 : op1.Amount <;> cases h2 : op2.Amount <;> simp_all

/-- C9, at two operations on 0xFEE in BTC that differ in identifier, related
operations, type, status, amount value and metadata. -/
theorem ExemptFunc_reads_account_and_currency_witness :
    sample.helperFee.ExemptFunc (sample.transfer 0 (some sample.feeAccount) "5" sample.btc) =
      sample.helperFee.ExemptFunc
        { OperationIdentifier := { Index := 9, NetworkIndex := some 2 }
          RelatedOperations := [{ Index := 8, NetworkIndex := none }]
          OpType := "FEE"
          Status := "REVERTED"
          Account := some sample.feeAccount
          Amount := some { Value := "-77", Currency := some sample.btc,
                           Metadata := [("memo", "x")] }
          Metadata := [("k", "v")] } :=
  ExemptFunc_reads_account_and_currency sample.helperFee _ _ rfl rfl

end processor
